import Mathlib

/-!
Shallow embedding of the RSTNPy pipeline (repository craam/RSTNPy), from the
canonical sources under src/rstnpy/: rstnfile.py (filename resolution,
station extensions, date validation), rstndownloader.py (URL construction,
upper/lower-case fallback download protocol), rstn.py (gzip decompression
bookkeeping, fixed-width record parsing, column-interval policy).

Python-level conventions used in the embedding:
  * `int(str)` is modelled by `pyInt` (ASCII whitespace stripping, optional
    sign, ASCII digits; `None` models the ValueError raise).
  * Python exceptions are values of `PyErr`; computations that can raise
    return `Except PyErr _`.  A `try/except E` corresponds to matching the
    specific constructor.
  * `str.lower()` is modelled on the ASCII range (`pyLower`); all strings
    the program compares against are ASCII.
  * File systems (a directory) are association lists name -> content;
    `fsWrite` overwrites, `fsErase` deletes.
  * Network access is a pure function `srv : String -> Nat x List Nat`
    mapping a URL to a status code and body; each issued GET is recorded in
    `DLState.requests` in order.
-/

inductive PyErr where
  | valueError
  | keyError
  | indexError
  | overflowError
  | httpError
  | fileNotFoundOnServerError
  | invalidDateError
  | badGzipFile
  | fileNotFoundError
deriving DecidableEq, Repr

/-- ASCII whitespace as stripped by Python `int(str)`. -/
def isPySpace (c : Char) : Bool :=
  c = ' ' || c = '\t' || c = '\n' || c = '\r' || c = Char.ofNat 11 || c = Char.ofNat 12

def stripWs (l : List Char) : List Char :=
  ((l.dropWhile isPySpace).reverse.dropWhile isPySpace).reverse

def natOfDigits (l : List Char) : Nat :=
  l.foldl (fun a c => a * 10 + (c.toNat - 48)) 0

/-- Core of Python `int(str)` after whitespace stripping: optional single
sign followed by a nonempty run of ASCII digits. -/
def pyIntCore : List Char → Option Int
  | '+' :: ds =>
      if ds.isEmpty then none
      else if ds.all Char.isDigit then some (natOfDigits ds) else none
  | '-' :: ds =>
      if ds.isEmpty then none
      else if ds.all Char.isDigit then some (-(natOfDigits ds : Int)) else none
  | ds =>
      if ds.isEmpty then none
      else if ds.all Char.isDigit then some (natOfDigits ds) else none

/-- Python `int(s)`; `none` models the `ValueError` raise. -/
def pyInt (s : String) : Option Int :=
  pyIntCore (stripWs s.data)

/-- Python list indexing `l[i]` with negative-index wraparound;
`none` models the `IndexError` raise. -/
def pyIndex {α : Type} (l : List α) (i : Int) : Option α :=
  if 0 ≤ i then l.get? i.toNat
  else if (-i).toNat ≤ l.length then l.get? (l.length - (-i).toNat)
  else none

/-- Python `str.lower()` restricted to the ASCII range. -/
def pyLowerChar (c : Char) : Char :=
  if 'A' ≤ c ∧ c ≤ 'Z' then Char.ofNat (c.toNat + 32) else c

def pyLower (s : String) : String :=
  ⟨s.data.map pyLowerChar⟩

/-- Python slice `s[a:b]` for nonnegative bounds. -/
def pySlice (s : String) (a b : Nat) : String :=
  ⟨(s.data.drop a).take (b - a)⟩

/-- Python slice `s[a:]`. -/
def pySliceFrom (s : String) (a : Nat) : String :=
  ⟨s.data.drop a⟩

/-- Association-list directory lookup (first match). -/
def fsFind {α : Type} : List (String × α) → String → Option α
  | [], _ => none
  | (k, v) :: r, n => if k = n then some v else fsFind r n

def fsErase {α : Type} (l : List (String × α)) (n : String) : List (String × α) :=
  l.filter (fun p => p.1 != n)

/-- Overwriting file write. -/
def fsWrite {α : Type} (l : List (String × α)) (n : String) (v : α) : List (String × α) :=
  (n, v) :: fsErase l n

theorem fsFind_write_self {α : Type} (l : List (String × α)) (n : String) (v : α) :
    fsFind (fsWrite l n v) n = some v := by
  simp [fsWrite, fsFind]

theorem fsFind_erase_self {α : Type} (l : List (String × α)) (n : String) :
    fsFind (fsErase l n) n = none := by
  induction l with
  | nil => rfl
  | cons p r ih =>
    by_cases h : p.1 = n
    · simpa [fsErase, h] using ih
    · simpa [fsErase, fsFind, h] using ih

theorem fsFind_erase_ne {α : Type} (l : List (String × α)) (n m : String) (h : n ≠ m) :
    fsFind (fsErase l m) n = fsFind l n := by
  induction l with
  | nil => rfl
  | cons p r ih =>
    by_cases hp : p.1 = m
    · have hpn : ¬ p.1 = n := fun hc => h (hc.symm.trans hp)
      rw [show fsFind (p :: r) n = fsFind r n by simp [fsFind, hpn]]
      simpa [fsErase, hp] using ih
    · by_cases hn : p.1 = n
      · simp [fsErase, fsFind, List.filter_cons, hp, hn, h]
      · simpa [fsErase, fsFind, List.filter_cons, hp, hn] using ih

theorem fsErase_write {α : Type} (l : List (String × α)) (n : String) (v : α) :
    fsErase (fsWrite l n v) n = fsErase l n := by
  simp [fsWrite, fsErase, List.filter_filter]

/-! ## RSTNFile (src/rstnpy/rstnfile.py) -/

/-- An observation request as held by `RSTNFile` / `RSTNDownloader`:
the four string attributes `year`, `month`, `day`, `station`. -/
structure Request where
  year : String
  month : String
  day : String
  station : String
deriving DecidableEq, Repr

def monthsUpper : List String :=
  ["JAN", "FEB", "MAR", "APR", "MAY", "JUN",
   "JUL", "AUG", "SEP", "OCT", "NOV", "DEC"]

def monthsLower : List String :=
  ["jan", "feb", "mar", "apr", "may", "jun",
   "jul", "aug", "sep", "oct", "nov", "dec"]

/-- `RSTNFile.__change_month_upper`: `months[int(self.month) - 1]`.
`int` failure raises ValueError, bad index raises IndexError. -/
def changeMonthUpper (month : String) : Except PyErr String :=
  match pyInt month with
  | none => .error .valueError
  | some i =>
    match pyIndex monthsUpper (i - 1) with
    | none => .error .indexError
    | some m => .ok m

/-- `RSTNFile.__change_month_lower`. -/
def changeMonthLower (month : String) : Except PyErr String :=
  match pyInt month with
  | none => .error .valueError
  | some i =>
    match pyIndex monthsLower (i - 1) with
    | none => .error .indexError
    | some m => .ok m

/-- The `__station_extensions` dictionary: station key (lower case) to
(lower, upper) extension tokens. -/
def stationExtensions : List (String × String × String) :=
  [("sagamore hill", ("k7o", "K7O")),
   ("san vito", ("lis", "LIS")),
   ("palehua", ("phf", "PHF")),
   ("learmonth", ("apl", "APL"))]

/-- `RSTNFile.set_file_extension_upper`: `"." + dict[station.lower()]["upper"]`,
with `.gz` appended when `file_gzip`; a missing station raises KeyError. -/
def setFileExtensionUpper (station : String) (file_gzip : Bool) : Except PyErr String :=
  match fsFind stationExtensions (pyLower station) with
  | none => .error .keyError
  | some e =>
    if file_gzip then .ok ("." ++ e.2 ++ ".gz") else .ok ("." ++ e.2)

/-- `RSTNFile.set_file_extension_lower`. -/
def setFileExtensionLower (station : String) (file_gzip : Bool) : Except PyErr String :=
  match fsFind stationExtensions (pyLower station) with
  | none => .error .keyError
  | some e =>
    if file_gzip then .ok ("." ++ e.1 ++ ".gz") else .ok ("." ++ e.1)

/-- Python `s[2:]` as used for `self.year[2:]`. -/
def pyDropFrom2 (s : String) : String :=
  ⟨s.data.drop 2⟩

/-- `RSTNFile.set_filename`: `day + month_abbrev + year[2:]`. -/
def setFilename (upper : Bool) (req : Request) : Except PyErr String :=
  match (if upper then changeMonthUpper req.month else changeMonthLower req.month) with
  | .error e => .error e
  | .ok m => .ok (req.day ++ m ++ pyDropFrom2 req.year)

/-- `RSTNFile.format_station_for_url`: `station.lower().replace(' ', '-')`. -/
def formatStationForUrl (station : String) : String :=
  ⟨(pyLower station).data.map (fun c => if c = ' ' then '-' else c)⟩

/-- `RSTNFile.is_date_valid`: parse the three fields with `int` and check
that `datetime(year, month, day)` does not raise. -/
def isLeap (y : Int) : Bool :=
  (y % 4 = 0 && y % 100 ≠ 0) || y % 400 = 0

def daysInMonth (y m : Int) : Int :=
  if m = 2 then (if isLeap y then 29 else 28)
  else if m = 4 || m = 6 || m = 9 || m = 11 then 30
  else 31

/-- The validity condition enforced by Python `datetime(y, mo, d, h, mi, s)`
(raises ValueError outside these bounds). -/
def datetimeOk (y mo d h mi s : Int) : Bool :=
  decide (1 ≤ y) && decide (y ≤ 9999) &&
  decide (1 ≤ mo) && decide (mo ≤ 12) &&
  decide (1 ≤ d) && decide (d ≤ daysInMonth y mo) &&
  decide (0 ≤ h) && decide (h ≤ 23) &&
  decide (0 ≤ mi) && decide (mi ≤ 59) &&
  decide (0 ≤ s) && decide (s ≤ 59)

def isDateValid (year month day : String) : Bool :=
  match pyInt year, pyInt month, pyInt day with
  | some y, some m, some d => datetimeOk y m d 0 0 0
  | _, _, _ => false

/-! ## RSTNDownloader (src/rstnpy/rstndownloader.py) -/

/-- Downloader-visible world state: the ordered log of issued GET requests,
the process working directory (where `__download` writes), and the target
directory `self.path` (where files are renamed to / checked for). -/
structure DLState where
  requests : List String
  cwd : List (String × List Nat)
  pathDir : List (String × List Nat)
deriving DecidableEq, Repr

def baseUri : String := "https://www.ngdc.noaa.gov"

/-- The fixed URL prefix built in `__set_url` up to and including the
trailing slash before the filename. -/
def urlPrefix (req : Request) : String :=
  baseUri ++ "/stp/space-weather/solar-data/" ++ "solar-features/solar-radio/rstn-1-second/"
    ++ formatStationForUrl req.station ++ "/" ++ req.year ++ "/" ++ req.month ++ "/"

/-- `RSTNDownloader.__set_url`. -/
def setUrl (upper : Bool) (req : Request) : Except PyErr String :=
  match setFilename upper req with
  | .error e => .error e
  | .ok fn =>
    match (if upper then setFileExtensionUpper req.station true
           else setFileExtensionLower req.station true) with
    | .error e => .error e
    | .ok ext => .ok (urlPrefix req ++ fn ++ ext)

/-- The URL `__set_url` produces once the month abbreviation `m` and the
gzip extension `e` are resolved. -/
def resolvedUrl (req : Request) (m e : String) : String :=
  urlPrefix req ++ (req.day ++ m ++ pyDropFrom2 req.year) ++ e

/-- The on-disk filename `__download` produces once the month abbreviation
`m` and the gzip extension `e` are resolved. -/
def resolvedFile (req : Request) (m e : String) : String :=
  req.day ++ m ++ pyDropFrom2 req.year ++ e

/-- `RSTNDownloader.file_exists`: build both case variants of the
decompressed filename and test them against the target directory. -/
def fileExists (req : Request) (st : DLState) : Except PyErr Bool :=
  match setFilename true req with
  | .error e => .error e
  | .ok f1 =>
  match setFileExtensionUpper req.station false with
  | .error e => .error e
  | .ok e1 =>
  match setFilename false req with
  | .error e => .error e
  | .ok f2 =>
  match setFileExtensionLower req.station false with
  | .error e => .error e
  | .ok e2 =>
    .ok ((fsFind st.pathDir (f1 ++ e1)).isSome || (fsFind st.pathDir (f2 ++ e2)).isSome)

/-- `RSTNDownloader.__download`: build url and filename, issue the GET
(recorded in `requests`), raise HTTPError on a non-200 status, otherwise
write the body to the working directory and return the filename.  The
state is returned in all cases because side effects survive the raise. -/
def download (upper : Bool) (req : Request) (srv : String → Nat × List Nat)
    (st : DLState) : DLState × Except PyErr String :=
  match setUrl upper req with
  | .error e => (st, .error e)
  | .ok url =>
    match setFilename upper req with
    | .error e => (st, .error e)
    | .ok fn0 =>
      match (if upper then setFileExtensionUpper req.station true
             else setFileExtensionLower req.station true) with
      | .error e => (st, .error e)
      | .ok ext =>
        let fn := fn0 ++ ext
        let st1 : DLState := { st with requests := st.requests ++ [url] }
        let r := srv url
        if r.1 = 200 then
          ({ st1 with cwd := fsWrite st1.cwd fn r.2 }, .ok fn)
        else (st1, .error .httpError)

/-- `Path(filename).rename(self.path.joinpath(filename))`: move the file
from the working directory into the target directory. -/
def renameToPath (st : DLState) (fn : String) : DLState × Except PyErr String :=
  match fsFind st.cwd fn with
  | none => (st, .error .fileNotFoundError)
  | some c =>
      ({ st with cwd := fsErase st.cwd fn, pathDir := fsWrite st.pathDir fn c }, .ok fn)

/-- `RSTNDownloader.download_file`: try the upper-case variant, on HTTPError
try the lower-case variant, on a second HTTPError raise
FileNotFoundOnServerError; on success move the file into the target
directory and return its name.  Non-HTTPError exceptions propagate. -/
def downloadFile (req : Request) (srv : String → Nat × List Nat)
    (st : DLState) : DLState × Except PyErr String :=
  match download true req srv st with
  | (st1, .ok fn) => renameToPath st1 fn
  | (st1, .error .httpError) =>
    match download false req srv st1 with
    | (st2, .ok fn) => renameToPath st2 fn
    | (st2, .error .httpError) =>
      match setUrl false req with
      | .error e => (st2, .error e)
      | .ok _ => (st2, .error .fileNotFoundOnServerError)
    | (st2, .error e) => (st2, .error e)
  | (st1, .error e) => (st1, .error e)

/-! ## RSTN reader (src/rstnpy/rstn.py) -/

/-- `RSTN.__set_column_interval`, on `int(self.year)` (where `self.year`
is `str(year)` for the integer request year, so the round trip is exact). -/
def setColumnInterval (year : Int) : Nat :=
  if year ≥ 2015 then 8
  else if year ≥ 2008 then 7
  else 6

/-- `RSTN.__cast_to_int64`: `numpy.int64(number)`; a ValueError (malformed
string) is caught and yields the missing sentinel `none` (numpy `nan`),
while an out-of-range integer raises OverflowError, which the method does
not catch. -/
def castToInt64 (s : String) : Except PyErr (Option Int) :=
  match pyInt s with
  | none => .ok none
  | some n =>
    if -(2 ^ 63) ≤ n ∧ n < 2 ^ 63 then .ok (some n) else .error .overflowError

/-- The timestamp built by `datetime(year, month, day, hour, minute, second)`
in `read_file`. -/
structure DateTime where
  year : Int
  month : Int
  day : Int
  hour : Int
  minute : Int
  second : Int
deriving DecidableEq, Repr

/-- The header interpretation of `read_file` (lines 390-397): characters
[4:8) year, [8:10) month, [10:12) day, [12:14) hour, [14:16) minute,
[16:18) second, each through `int`, then `datetime(...)`; `none` models the
ValueError raise for an unparseable field or an invalid date/time. -/
def parseHeader (line : String) : Option DateTime :=
  match pyInt (pySlice line 4 8), pyInt (pySlice line 8 10), pyInt (pySlice line 10 12),
        pyInt (pySlice line 12 14), pyInt (pySlice line 14 16), pyInt (pySlice line 16 18) with
  | some y, some mo, some d, some h, some mi, some s =>
      if datetimeOk y mo d h mi s then some ⟨y, mo, d, h, mi, s⟩ else none
  | _, _, _, _, _, _ => none

/-- An entry of one of the `rstn_data` lists: either a timestamp (in the
`"time"` list) or a flux value (`none` is the numpy `nan` sentinel). -/
inductive Cell where
  | time (t : DateTime)
  | flux (v : Option Int)
deriving DecidableEq, Repr

/-- The `rstn_data` dictionary: keys in source order from the literal at
rstn.py lines 381-384.  Note the key `"f1415"`. -/
def RstnDict : Type := List (String × List Cell)

instance : DecidableEq RstnDict := by
  unfold RstnDict
  infer_instance

def initDict : RstnDict :=
  [("time", []), ("245", []), ("410", []), ("610", []),
   ("f1415", []), ("2695", []), ("4995", []), ("8800", []),
   ("15400", [])]

/-- `rstn_data[k].append(v)`: appending under a key that is not present
raises KeyError. -/
def dictAppend (d : RstnDict) (k : String) (v : Cell) : Except PyErr RstnDict :=
  if d.any (fun p => p.1 == k) then
    .ok (d.map (fun p => if p.1 == k then (p.1, p.2 ++ [v]) else p))
  else .error .keyError

/-- The body of the `for line in fp.readlines()` loop of `read_file`
(rstn.py lines 390-415): parse the header, append the timestamp, then
append each flux field, cast to int64, under the keys
"245", "410", "610", "1415", "2695", "4995", "8800", "15400". -/
def processLine (interval : Nat) (d : RstnDict) (line : String) : Except PyErr RstnDict :=
  match parseHeader line with
  | none => .error .valueError
  | some dt => do
    let d ← dictAppend d "time" (.time dt)
    let v245 ← castToInt64 (pySlice line 18 (18 + interval))
    let d ← dictAppend d "245" (.flux v245)
    let v410 ← castToInt64 (pySlice line (18 + interval) (18 + interval * 2))
    let d ← dictAppend d "410" (.flux v410)
    let v610 ← castToInt64 (pySlice line (18 + interval * 2) (18 + interval * 3))
    let d ← dictAppend d "610" (.flux v610)
    let v1415 ← castToInt64 (pySlice line (18 + interval * 3) (18 + interval * 4))
    let d ← dictAppend d "1415" (.flux v1415)
    let v2695 ← castToInt64 (pySlice line (18 + interval * 4) (18 + interval * 5))
    let d ← dictAppend d "2695" (.flux v2695)
    let v4995 ← castToInt64 (pySlice line (18 + interval * 5) (18 + interval * 6))
    let d ← dictAppend d "4995" (.flux v4995)
    let v8800 ← castToInt64 (pySlice line (18 + interval * 6) (18 + interval * 7))
    let d ← dictAppend d "8800" (.flux v8800)
    let v15400 ← castToInt64 (pySliceFrom line (18 + interval * 7))
    dictAppend d "15400" (.flux v15400)

/-- The loop of `read_file`: process the lines in order; a raise aborts the
whole read. -/
def readLines (interval : Nat) : RstnDict → List String → Except PyErr RstnDict
  | d, [] => .ok d
  | d, l :: rest =>
    match processLine interval d l with
    | .error e => .error e
    | .ok d1 => readLines interval d1 rest

/-- `RSTN.read_file` on the lines of the already-resolved file (the
FilenameNotSetError guard concerns an unresolved filename and is outside
this model, which takes the file content directly). -/
def readFile (year : Int) (lines : List String) : Except PyErr RstnDict :=
  readLines (setColumnInterval year) initDict lines

/-! ## Decompression (`RSTN.decompress_file`, rstn.py lines 309-336) -/

/-- Content of a stored file at the gzip-module boundary: `gz payload`
is a byte sequence that is the gzip framing of `payload`; `raw bytes` is a
byte sequence that does not parse as gzip (reading it through `gzip.open`
raises BadGzipFile). -/
inductive Content where
  | raw (bytes : List Nat)
  | gz (payload : List Nat)
deriving DecidableEq, Repr

/-- A recorded file-system mutation, in execution order. -/
inductive FsOp where
  | write (name : String) (bytes : List Nat)
  | remove (name : String)
deriving DecidableEq, Repr

def gzChars : List Char := ['.', 'g', 'z']

/-- Python `filename.split('.gz')[0]`: the prefix before the first
occurrence of `".gz"` (the whole string when absent). -/
def gzSplitChars : List Char → List Char
  | [] => []
  | c :: r => if gzChars.isPrefixOf (c :: r) then [] else c :: gzSplitChars r

/-- Whether `".gz"` occurs (entirely) inside `l`. -/
def gzOccursIn : List Char → Bool
  | [] => false
  | c :: r => gzChars.isPrefixOf (c :: r) || gzOccursIn r

/-- `RSTN.decompress_file` on a directory `fs` and the current filename:
open the file with gzip (FileNotFoundError when absent, BadGzipFile for
non-gzip content), read the decoded payload, write it to the sibling name
`filename.split('.gz')[0]`, then `os.remove` the original.  The returned
`FsOp` list records the mutations in execution order. -/
def decompressFile (fs : List (String × Content)) (filename : String) :
    Except PyErr String × List (String × Content) × List FsOp :=
  match fsFind fs filename with
  | none => (.error .fileNotFoundError, fs, [])
  | some (.raw _) => (.error .badGzipFile, fs, [])
  | some (.gz payload) =>
    let finalName : String := ⟨gzSplitChars filename.data⟩
    let fs1 := fsWrite fs finalName (.raw payload)
    let fs2 := fsErase fs1 filename
    (.ok finalName, fs2, [.write finalName payload, .remove filename])

theorem gzSplit_append (base : List Char) (h : gzOccursIn base = false) :
    gzSplitChars (base ++ gzChars) = base := by
  induction base with
  | nil => rfl
  | cons c r ih =>
    have h1 : gzChars.isPrefixOf (c :: r) = false ∧ gzOccursIn r = false := by
      have h2 := h
      simp only [gzOccursIn, Bool.or_eq_false_iff] at h2
      exact h2
    have hpre : gzChars.isPrefixOf (c :: (r ++ gzChars)) = false := by
      match r with
      | [] =>
        simp [gzChars, List.isPrefixOf]
      | [d] =>
        simp [gzChars, List.isPrefixOf]
      | d :: e :: r2 =>
        have h3 := h1.1
        simp only [gzChars, List.isPrefixOf, Bool.and_eq_false_iff] at h3 ⊢
        simpa using h3
    rw [List.cons_append, gzSplitChars, hpre]
    simp only [Bool.false_eq_true, if_false]
    rw [ih h1.2]

/-! ## Characterization of the download protocol -/

theorem download_spec (upper : Bool) (req : Request) (srv : String → Nat × List Nat)
    (st : DLState) (m e : String)
    (hm : (if upper then changeMonthUpper req.month else changeMonthLower req.month) = .ok m)
    (he : (if upper then setFileExtensionUpper req.station true
           else setFileExtensionLower req.station true) = .ok e) :
    download upper req srv st =
      (if (srv (resolvedUrl req m e)).1 = 200 then
        ({ st with requests := st.requests ++ [resolvedUrl req m e],
                   cwd := fsWrite st.cwd (resolvedFile req m e)
                            (srv (resolvedUrl req m e)).2 },
         .ok (resolvedFile req m e))
      else
        ({ st with requests := st.requests ++ [resolvedUrl req m e] },
         .error .httpError)) := by
  simp only [download, setUrl, setFilename, hm, he, resolvedUrl, resolvedFile]

theorem downloadFile_spec_upper (req : Request) (srv : String → Nat × List Nat)
    (st : DLState) (mU eU : String)
    (hmU : changeMonthUpper req.month = .ok mU)
    (heU : setFileExtensionUpper req.station true = .ok eU)
    (h200 : (srv (resolvedUrl req mU eU)).1 = 200) :
    downloadFile req srv st =
      ({ requests := st.requests ++ [resolvedUrl req mU eU],
         cwd := fsErase st.cwd (resolvedFile req mU eU),
         pathDir := fsWrite st.pathDir (resolvedFile req mU eU)
                      (srv (resolvedUrl req mU eU)).2 },
       .ok (resolvedFile req mU eU)) := by
  rw [downloadFile, download_spec true req srv st mU eU (by simpa using hmU) (by simpa using heU),
    if_pos h200]
  simp [renameToPath, fsFind_write_self, fsErase_write]

theorem downloadFile_spec_lower (req : Request) (srv : String → Nat × List Nat)
    (st : DLState) (mU eU mL eL : String)
    (hmU : changeMonthUpper req.month = .ok mU)
    (heU : setFileExtensionUpper req.station true = .ok eU)
    (hmL : changeMonthLower req.month = .ok mL)
    (heL : setFileExtensionLower req.station true = .ok eL)
    (hUfail : (srv (resolvedUrl req mU eU)).1 ≠ 200)
    (h200 : (srv (resolvedUrl req mL eL)).1 = 200) :
    downloadFile req srv st =
      ({ requests := st.requests ++ [resolvedUrl req mU eU, resolvedUrl req mL eL],
         cwd := fsErase st.cwd (resolvedFile req mL eL),
         pathDir := fsWrite st.pathDir (resolvedFile req mL eL)
                      (srv (resolvedUrl req mL eL)).2 },
       .ok (resolvedFile req mL eL)) := by
  rw [downloadFile, download_spec true req srv st mU eU (by simpa using hmU) (by simpa using heU),
    if_neg hUfail]
  dsimp only
  rw [download_spec false req srv _ mL eL (by simpa using hmL) (by simpa using heL),
    if_pos h200]
  simp [renameToPath, fsFind_write_self, fsErase_write]

theorem downloadFile_spec_fail (req : Request) (srv : String → Nat × List Nat)
    (st : DLState) (mU eU mL eL : String)
    (hmU : changeMonthUpper req.month = .ok mU)
    (heU : setFileExtensionUpper req.station true = .ok eU)
    (hmL : changeMonthLower req.month = .ok mL)
    (heL : setFileExtensionLower req.station true = .ok eL)
    (hUfail : (srv (resolvedUrl req mU eU)).1 ≠ 200)
    (hLfail : (srv (resolvedUrl req mL eL)).1 ≠ 200) :
    downloadFile req srv st =
      ({ st with requests := st.requests ++ [resolvedUrl req mU eU, resolvedUrl req mL eL] },
       .error .fileNotFoundOnServerError) := by
  rw [downloadFile, download_spec true req srv st mU eU (by simpa using hmU) (by simpa using heU),
    if_neg hUfail]
  dsimp only
  rw [download_spec false req srv _ mL eL (by simpa using hmL) (by simpa using heL),
    if_neg hLfail]
  simp [setUrl, setFilename, hmL, heL]

/-! ## Claims -/

/-- Claim C9: `column_interval` returns 6 for every year before 2008, 7 for
2008 through 2014, and 8 from 2015 on; in particular 6, 7, 8 for the years
2005, 2008, 2016. -/
theorem C9_column_interval (y : Int) :
    (y < 2008 → setColumnInterval y = 6) ∧
    (2008 ≤ y → y < 2015 → setColumnInterval y = 7) ∧
    (2015 ≤ y → setColumnInterval y = 8) ∧
    setColumnInterval 2005 = 6 ∧ setColumnInterval 2008 = 7 ∧ setColumnInterval 2016 = 8 := by
  refine ⟨?_, ?_, ?_, by decide, by decide, by decide⟩ <;>
    · intros
      unfold setColumnInterval
      split_ifs <;> omega

/-- Witness for C9 at the three concrete years named by the claim. -/
theorem C9_column_interval_witness :
    setColumnInterval 2005 = 6 ∧ setColumnInterval 2008 = 7 ∧ setColumnInterval 2016 = 8 :=
  ⟨(C9_column_interval 2005).1 (by decide),
   (C9_column_interval 2008).2.1 (by decide) (by decide),
   (C9_column_interval 2016).2.2.1 (by decide)⟩

def knownStations : List String := ["sagamore hill", "san vito", "palehua", "learmonth"]

/-- Claim C10: for every station string whose lower-cased form is not one of
the four known station names, building a file extension raises an uncaught
KeyError from the station-extension dictionary, and (month resolving) the
whole download fails with that KeyError before any network request; for the
four known stations (accepted case-insensitively, spaces allowed) the lookup
always succeeds. -/
theorem C10_station_lookup (s : String) (gz : Bool) :
    (pyLower s ∉ knownStations →
      setFileExtensionUpper s gz = .error .keyError ∧
      setFileExtensionLower s gz = .error .keyError ∧
      ∀ (req : Request) (srv : String → Nat × List Nat) (st : DLState) (m : String),
        req.station = s → changeMonthUpper req.month = .ok m →
        downloadFile req srv st = (st, .error .keyError)) ∧
    (pyLower s ∈ knownStations →
      ∃ eU eL, setFileExtensionUpper s gz = .ok eU ∧ setFileExtensionLower s gz = .ok eL) := by
  have hfind : pyLower s ∉ knownStations ↔ fsFind stationExtensions (pyLower s) = none := by
    constructor
    · intro hno
      have n1 : ¬ ("sagamore hill" = pyLower s) := fun hc => hno (by simp [knownStations, ← hc])
      have n2 : ¬ ("san vito" = pyLower s) := fun hc => hno (by simp [knownStations, ← hc])
      have n3 : ¬ ("palehua" = pyLower s) := fun hc => hno (by simp [knownStations, ← hc])
      have n4 : ¬ ("learmonth" = pyLower s) := fun hc => hno (by simp [knownStations, ← hc])
      simp [stationExtensions, fsFind, n1, n2, n3, n4]
    · intro hn hmem
      have hcases : pyLower s = "sagamore hill" ∨ pyLower s = "san vito" ∨
          pyLower s = "palehua" ∨ pyLower s = "learmonth" := by
        simpa [knownStations] using hmem
      rcases hcases with h | h | h | h <;>
        simp [stationExtensions, fsFind, h] at hn
  constructor
  · intro hno
    have hn := hfind.mp hno
    have hU : setFileExtensionUpper s gz = .error .keyError := by
      simp [setFileExtensionUpper, hn]
    have hL : setFileExtensionLower s gz = .error .keyError := by
      simp [setFileExtensionLower, hn]
    refine ⟨hU, hL, ?_⟩
    intro req srv st m hs hm
    have hU1 : setFileExtensionUpper req.station true = .error .keyError := by
      simp [setFileExtensionUpper, hs, hn]
    simp [downloadFile, download, setUrl, setFilename, hm, hU1]
  · intro hyes
    rcases hk : fsFind stationExtensions (pyLower s) with _ | e
    · exact absurd (hfind.mpr hk) (by simpa using hyes)
    · cases gz with
      | false =>
        exact ⟨"." ++ e.2, "." ++ e.1,
          by simp [setFileExtensionUpper, hk], by simp [setFileExtensionLower, hk]⟩
      | true =>
        exact ⟨"." ++ e.2 ++ ".gz", "." ++ e.1 ++ ".gz",
          by simp [setFileExtensionUpper, hk], by simp [setFileExtensionLower, hk]⟩

/-- Witness for C10: an unknown station raises KeyError, a known station in
upper case with a space succeeds. -/
theorem C10_station_lookup_witness :
    setFileExtensionUpper "Kitt Peak" true = .error .keyError ∧
    ∃ eU eL, setFileExtensionUpper "SAGAMORE HILL" true = .ok eU ∧
      setFileExtensionLower "SAGAMORE HILL" true = .ok eL :=
  ⟨((C10_station_lookup "Kitt Peak" true).1 (by decide)).1,
   (C10_station_lookup "SAGAMORE HILL" true).2 (by decide)⟩

deriving instance DecidableEq for Except

/-- A well-formed fixed-width line for the year 2002 (interval 6): 4-byte
station tag, 14-byte timestamp 2002-09-04 12:00:00, eight 6-wide flux
fields. -/
def c1Line : String :=
  "K7OL20020904120000   100   200   300   400   500   600   700   800"

/-- Claim C1 (code bug in `read_file`): the header of a well-formed line is
interpreted exactly as the claim says (characters [4:8) year, [8:10) month,
[10:12) day, [12:14) hour, [14:16) minute, [16:18) second), yet `read_file`
cannot return the index-aligned column structure for any nonempty file: the
`rstn_data` dictionary literal is initialized with the key "f1415" while the
loop appends under the key "1415", so the very first record raises KeyError.
An empty file still returns the dictionary, showing the failure comes from
the per-line appends. -/
theorem C1_read_file_key_bug :
    parseHeader c1Line = some ⟨2002, 9, 4, 12, 0, 0⟩ ∧
    readFile 2002 [c1Line] = .error .keyError ∧
    readFile 2002 [] = .ok initDict := by
  refine ⟨by decide, by decide, rfl⟩

/-- A line whose 18-character header cannot be tokenized (too short, the
year slice is empty). -/
def c6Line : String := "XXXX"

/-- Counterexample to claim C6: a file consisting of one malformed line is
not skipped; `read_file` raises ValueError instead of returning the (empty)
records of the well-formed lines. -/
theorem C6_skip_cex :
    readFile 2002 [c6Line] = .error .valueError ∧
    readFile 2002 [c6Line] ≠ .ok initDict := by
  refine ⟨by decide, by decide⟩

/-- Claim C6 as amended: `read_file` does not skip a line that fails to
tokenize; when such a line is reached (here: first line of the file) the
`int`/`datetime` ValueError propagates and aborts the whole read, returning
no records at all. -/
theorem C6_no_skip_amended (line : String) (rest : List String) (year : Int)
    (h : parseHeader line = none) :
    readFile year (line :: rest) = .error .valueError := by
  simp [readFile, readLines, processLine, h]

/-- Witness for the amended C6 at a concrete malformed line. -/
theorem C6_no_skip_amended_witness :
    parseHeader "" = none ∧ readFile 2015 ["", "K7OL"] = .error .valueError :=
  ⟨by decide, C6_no_skip_amended "" ["K7OL"] 2015 (by decide)⟩

/-- A line whose first flux field ("245") is non-numeric while the header
and all other fields are well formed. -/
def c7Line : String :=
  "K7OL20020904120000  XX.5   200   300   400   500   600   700   800"

/-- Claim C7 (code bug in `read_file`): the per-field mechanism behaves as
the claim says at the level of `__cast_to_int64` (the bad field degrades to
the missing sentinel, the sibling field casts normally, the timestamp
parses), but the promised record is never produced: every line, with or
without a bad flux field, raises KeyError at the "1415" append because the
dictionary was initialized with the key "f1415". -/
theorem C7_sentinel_key_bug :
    castToInt64 (pySlice c7Line 18 24) = .ok none ∧
    castToInt64 (pySlice c7Line 24 30) = .ok (some 200) ∧
    parseHeader c7Line = some ⟨2002, 9, 4, 12, 0, 0⟩ ∧
    readFile 2002 [c7Line] = .error .keyError := by
  refine ⟨by decide, by decide, by decide, by decide⟩

/-- Counterexample to claim C4: a file whose content is not gzip-framed does
not make `decompress_file` return the filename unchanged; the
`gzipped_file.read()` raises BadGzipFile (which nothing catches).  The
directory is untouched and no file operation is performed, but no filename
is returned. -/
theorem C4_passthrough_cex :
    decompressFile [("04SEP02.K7O.gz", Content.raw [1, 2, 3])] "04SEP02.K7O.gz" =
      (.error .badGzipFile, [("04SEP02.K7O.gz", Content.raw [1, 2, 3])], []) ∧
    (decompressFile [("04SEP02.K7O.gz", Content.raw [1, 2, 3])] "04SEP02.K7O.gz").1 ≠
      .ok "04SEP02.K7O.gz" := by
  refine ⟨by decide, by decide⟩

/-- Claim C4 as amended: on a file whose content is not gzip-framed,
`decompress_file` raises BadGzipFile instead of returning the filename; the
raise happens before any write or delete, so the file's bytes are untouched,
no sibling file is written and nothing is deleted. -/
theorem C4_no_passthrough_amended (fs : List (String × Content)) (fn : String) (b : List Nat)
    (h : fsFind fs fn = some (.raw b)) :
    decompressFile fs fn = (.error .badGzipFile, fs, []) := by
  simp [decompressFile, h]

/-- Witness for the amended C4 at a concrete non-gzip file. -/
theorem C4_no_passthrough_amended_witness :
    decompressFile [("25jan09.apl", Content.raw [5])] "25jan09.apl" =
      (.error .badGzipFile, [("25jan09.apl", Content.raw [5])], []) :=
  C4_no_passthrough_amended [("25jan09.apl", Content.raw [5])] "25jan09.apl" [5] (by decide)

/-- Claim C8: if the current file holds the gzip compression of bytes `C`
and its name is `base ++ ".gz"` with no earlier ".gz" occurrence in `base`,
then `decompress_file` returns the suffix-stripped name, the sibling file
holds exactly the bytes `C`, the compressed original is gone, and the
recorded operation order shows the new file is written before the original
is deleted. -/
theorem C8_round_trip (fs : List (String × Content)) (fn : String)
    (c : List Nat) (base : List Char)
    (hfind : fsFind fs fn = some (.gz c))
    (hname : fn.data = base ++ gzChars)
    (hsub : gzOccursIn base = false) :
    (decompressFile fs fn).1 = .ok ⟨base⟩ ∧
    (decompressFile fs fn).2.2 = [.write ⟨base⟩ c, .remove fn] ∧
    fsFind (decompressFile fs fn).2.1 ⟨base⟩ = some (.raw c) ∧
    fsFind (decompressFile fs fn).2.1 fn = none := by
  have hsplit : gzSplitChars fn.data = base := by
    rw [hname]
    exact gzSplit_append base hsub
  have hne : (⟨base⟩ : String) ≠ fn := by
    intro hEq
    have hdata : fn.data = base := by rw [← hEq]
    have h2 : base = base ++ gzChars := hdata.symm.trans hname
    have h3 := congrArg List.length h2
    simp [gzChars] at h3
  refine ⟨?_, ?_, ?_, ?_⟩ <;>
    simp [decompressFile, hfind, hsplit, fsFind_erase_self,
      fsFind_erase_ne _ _ _ hne, fsFind_write_self]

/-- Witness for C8 at a concrete gzip-framed file. -/
theorem C8_round_trip_witness :
    (decompressFile [("04SEP02.K7O.gz", Content.gz [10, 20, 30])] "04SEP02.K7O.gz").1 =
      .ok "04SEP02.K7O" ∧
    fsFind (decompressFile [("04SEP02.K7O.gz", Content.gz [10, 20, 30])]
      "04SEP02.K7O.gz").2.1 "04SEP02.K7O" = some (.raw [10, 20, 30]) := by
  have h := C8_round_trip [("04SEP02.K7O.gz", Content.gz [10, 20, 30])] "04SEP02.K7O.gz"
    [10, 20, 30] ("04SEP02.K7O".data) (by decide) (by decide) (by decide)
  exact ⟨h.1, h.2.2.1⟩

def reqC2 : Request := ⟨"2002", "09", "04", "Sagamore Hill"⟩

def srv200 : String → Nat × List Nat := fun _ => (200, [1, 2])

def stC2 : DLState := ⟨[], [], [("04SEP02.K7O", [7])]⟩

/-- Counterexample to claim C2: the requested file is already present in the
target directory (`file_exists` reports true), yet `download_file` still
issues a network request (the request log grows from 0 to 1) and
re-downloads instead of returning the existing filename with zero requests.
-/
theorem C2_cache_cex :
    fileExists reqC2 stC2 = .ok true ∧
    (downloadFile reqC2 srv200 stC2).1.requests.length = 1 ∧
    (downloadFile reqC2 srv200 stC2).2 = .ok "04SEP02.K7O.gz" := by
  refine ⟨rfl, rfl, rfl⟩

/-- Claim C2 as amended: `download_file` never consults `file_exists` or the
local directory: whatever the local state, it always issues the upper-case
GET first (so a repeated call performs network requests again), and the
returned filename is a function of the request and server alone, hence both
calls return the same filename. -/
theorem C2_no_cache_amended (req : Request) (srv : String → Nat × List Nat)
    (st st2 : DLState) (mU eU mL eL : String)
    (hmU : changeMonthUpper req.month = .ok mU)
    (heU : setFileExtensionUpper req.station true = .ok eU)
    (hmL : changeMonthLower req.month = .ok mL)
    (heL : setFileExtensionLower req.station true = .ok eL) :
    (∃ more, (downloadFile req srv st).1.requests =
        st.requests ++ resolvedUrl req mU eU :: more) ∧
    (downloadFile req srv st).2 = (downloadFile req srv st2).2 := by
  by_cases hU : (srv (resolvedUrl req mU eU)).1 = 200
  · rw [downloadFile_spec_upper req srv st mU eU hmU heU hU,
      downloadFile_spec_upper req srv st2 mU eU hmU heU hU]
    exact ⟨⟨[], rfl⟩, rfl⟩
  · by_cases hL : (srv (resolvedUrl req mL eL)).1 = 200
    · rw [downloadFile_spec_lower req srv st mU eU mL eL hmU heU hmL heL hU hL,
        downloadFile_spec_lower req srv st2 mU eU mL eL hmU heU hmL heL hU hL]
      exact ⟨⟨[resolvedUrl req mL eL], rfl⟩, rfl⟩
    · rw [downloadFile_spec_fail req srv st mU eU mL eL hmU heU hmL heL hU hL,
        downloadFile_spec_fail req srv st2 mU eU mL eL hmU heU hmL heL hU hL]
      exact ⟨⟨[resolvedUrl req mL eL], rfl⟩, rfl⟩

/-- Witness for the amended C2: the concrete request of `C2_cache_cex`
(file already present) still issues the upper-case GET, and its result is
independent of the local state. -/
theorem C2_no_cache_amended_witness :
    (∃ more, (downloadFile reqC2 srv200 stC2).1.requests =
        stC2.requests ++ resolvedUrl reqC2 "SEP" ".K7O.gz" :: more) ∧
    (downloadFile reqC2 srv200 stC2).2 = (downloadFile reqC2 srv200 ⟨[], [], []⟩).2 :=
  C2_no_cache_amended reqC2 srv200 stC2 ⟨[], [], []⟩ "SEP" ".K7O.gz" "sep" ".k7o.gz"
    rfl rfl rfl rfl

def reqC3 : Request := ⟨"2021", "02", "30", "Sagamore Hill"⟩

def srv404 : String → Nat × List Nat := fun _ => (404, [])

/-- Counterexample to claim C3: the request date 2021-02-30 is not a valid
calendar date (`is_date_valid` itself says so), yet `download_file` does not
fail with the invalid-date condition before I/O: it issues two network
requests and surfaces the failure as FileNotFoundOnServerError. -/
theorem C3_invalid_date_cex :
    isDateValid "2021" "02" "30" = false ∧
    (downloadFile reqC3 srv404 ⟨[], [], []⟩).1.requests.length = 2 ∧
    (downloadFile reqC3 srv404 ⟨[], [], []⟩).2 = .error .fileNotFoundOnServerError := by
  refine ⟨rfl, rfl, rfl⟩

/-- Claim C3 as amended: `download_file` performs no date validation.  For
the invalid calendar date (2021, 2, 30) — which `is_date_valid` correctly
rejects, though `download_file` never calls it — the download proceeds to
the network for any server and any prior state: the upper-case GET is
issued first and the result is never the invalid-date error. -/
theorem C3_no_validation_amended (srv : String → Nat × List Nat) (st : DLState) :
    isDateValid reqC3.year reqC3.month reqC3.day = false ∧
    (∃ more, (downloadFile reqC3 srv st).1.requests =
        st.requests ++ resolvedUrl reqC3 "FEB" ".K7O.gz" :: more) ∧
    (downloadFile reqC3 srv st).2 ≠ .error .invalidDateError := by
  refine ⟨rfl, ?_, ?_⟩ <;>
  · by_cases hU : (srv (resolvedUrl reqC3 "FEB" ".K7O.gz")).1 = 200
    · rw [downloadFile_spec_upper reqC3 srv st "FEB" ".K7O.gz" rfl rfl hU]
      first
      | exact ⟨[], rfl⟩
      | simp
    · by_cases hL : (srv (resolvedUrl reqC3 "feb" ".k7o.gz")).1 = 200
      · rw [downloadFile_spec_lower reqC3 srv st "FEB" ".K7O.gz" "feb" ".k7o.gz"
          rfl rfl rfl rfl hU hL]
        first
        | exact ⟨[resolvedUrl reqC3 "feb" ".k7o.gz"], rfl⟩
        | simp
      · rw [downloadFile_spec_fail reqC3 srv st "FEB" ".K7O.gz" "feb" ".k7o.gz"
          rfl rfl rfl rfl hU hL]
        first
        | exact ⟨[resolvedUrl reqC3 "feb" ".k7o.gz"], rfl⟩
        | simp

/-- Claim C5: for every request in the spec's data model (month resolving to
an abbreviation, station known), the upper-case variant URL is requested
before the lower-case one; a non-200 on the upper variant is not fatal but
leads to the lower attempt; FileNotFoundOnServerError is raised exactly when
both variants return non-200; on failure no file is written (working
directory and target directory unchanged), on success exactly one file is
written to the target directory. -/
theorem C5_fallback_protocol (req : Request) (srv : String → Nat × List Nat)
    (st : DLState) (mU eU mL eL : String)
    (hmU : changeMonthUpper req.month = .ok mU)
    (heU : setFileExtensionUpper req.station true = .ok eU)
    (hmL : changeMonthLower req.month = .ok mL)
    (heL : setFileExtensionLower req.station true = .ok eL) :
    ((srv (resolvedUrl req mU eU)).1 = 200 →
      downloadFile req srv st =
        ({ requests := st.requests ++ [resolvedUrl req mU eU],
           cwd := fsErase st.cwd (resolvedFile req mU eU),
           pathDir := fsWrite st.pathDir (resolvedFile req mU eU)
                        (srv (resolvedUrl req mU eU)).2 },
         .ok (resolvedFile req mU eU))) ∧
    ((srv (resolvedUrl req mU eU)).1 ≠ 200 → (srv (resolvedUrl req mL eL)).1 = 200 →
      downloadFile req srv st =
        ({ requests := st.requests ++ [resolvedUrl req mU eU, resolvedUrl req mL eL],
           cwd := fsErase st.cwd (resolvedFile req mL eL),
           pathDir := fsWrite st.pathDir (resolvedFile req mL eL)
                        (srv (resolvedUrl req mL eL)).2 },
         .ok (resolvedFile req mL eL))) ∧
    ((srv (resolvedUrl req mU eU)).1 ≠ 200 → (srv (resolvedUrl req mL eL)).1 ≠ 200 →
      downloadFile req srv st =
        ({ st with requests := st.requests ++ [resolvedUrl req mU eU, resolvedUrl req mL eL] },
         .error .fileNotFoundOnServerError)) :=
  ⟨fun h200 => downloadFile_spec_upper req srv st mU eU hmU heU h200,
   fun hU h200 => downloadFile_spec_lower req srv st mU eU mL eL hmU heU hmL heL hU h200,
   fun hU hL => downloadFile_spec_fail req srv st mU eU mL eL hmU heU hmL heL hU hL⟩

def reqC5 : Request := ⟨"2002", "09", "04", "San Vito"⟩

/-- Witness for C5 at a concrete request against a server that accepts the
upper-case variant: one GET, one file written to the target directory. -/
theorem C5_fallback_protocol_witness :
    downloadFile reqC5 (fun _ => (200, [3, 4])) ⟨[], [], []⟩ =
      ({ requests := [resolvedUrl reqC5 "SEP" ".LIS.gz"],
         cwd := [],
         pathDir := [("04SEP02.LIS.gz", [3, 4])] },
       .ok "04SEP02.LIS.gz") :=
  (C5_fallback_protocol reqC5 (fun _ => (200, [3, 4])) ⟨[], [], []⟩
    "SEP" ".LIS.gz" "sep" ".lis.gz" rfl rfl rfl rfl).1 rfl
